import Mathlib

/-!
Verification of the chicken-feed linear-programming formulation (`main.py`).

The script builds one LP over seven ingredient decision variables: four
linear constraints (mass, calcium, salt, protein), one minimize objective,
then extracts and reports results with an asymmetric rounding policy.
Python floats are embedded as exact rationals; the external GLOP engine is
modelled only through the narrow interface the script uses (variable with
bounds, linear constraint, objective, status, per-variable solution value).
-/

namespace FeedCalc

/-- Python exceptions relevant to the claims under study. -/
inductive PyExn where
  | invalidBounds
  | notSolved
  | nameError
deriving DecidableEq

/-- One feed ingredient, as stored by `Ingredient.__init__` together with the
bounds it passes to `solver.NumVar(min_weight, max_weight, ...)`.
`max_weight = none` models `solver.infinity()`. -/
structure Ingredient where
  name : String
  shona_name : String
  calcium : ℚ
  salt : ℚ
  methionine : ℚ
  digestible_crude_protein : ℚ
  min_weight : ℚ
  max_weight : Option ℚ
deriving DecidableEq

/-- The label `f"{name} - {shona_name}"` given to the registered NumVar. -/
def Ingredient.varLabel (ing : Ingredient) : String :=
  ing.name ++ " - " ++ ing.shona_name

/-- The constructor `Ingredient.__init__`: stores the six fields and registers one decision
variable bounded to [min_weight, max_weight].  The source body contains no
validation and no raise statement, so the constructor always succeeds; the
`Except` type records that a Python constructor could in principle raise. -/
def Ingredient.init (name shona_name : String)
    (calcium salt methionine digestible_crude_protein : ℚ)
    (min_weight : ℚ) (max_weight : Option ℚ) : Except PyExn Ingredient :=
  .ok { name := name, shona_name := shona_name, calcium := calcium,
        salt := salt, methionine := methionine,
        digestible_crude_protein := digestible_crude_protein,
        min_weight := min_weight, max_weight := max_weight }

/-- Python's built-in `round` to an integer: round half to even.  Written
with the executable `Rat.floor` so that concrete inputs evaluate. -/
def pyRound (q : ℚ) : ℤ :=
  if q - q.floor < 1/2 then q.floor
  else if 1/2 < q - q.floor then q.floor + 1
  else if q.floor % 2 = 0 then q.floor else q.floor + 1

/-- The engine accessor `MPVariable.solution_value()`: before any solve the
engine holds no solution and reports 0.0; after a solve it reports the solved
value.  `none` models the pre-solve state. -/
def solutionValue (sol : Option ℚ) : ℚ := sol.getD 0

/-- The value produced by the `Ingredient.weight` property given the engine's
current solution value for its variable: unrounded for the ingredient named
"Salt", `round(...)` for every other ingredient. -/
def Ingredient.weightVal (ing : Ingredient) (v : ℚ) : ℚ :=
  if ing.name = "Salt" then v else ((pyRound v : ℤ) : ℚ)

/-- The `Ingredient.weight` property.  The source guards nothing: the only
mention of solve status is the comment "Solver must be solved before this is
called", so the accessor is total over the engine state and never raises. -/
def Ingredient.weight (ing : Ingredient) (sol : Option ℚ) : Except PyExn ℚ :=
  if ing.name = "Salt" then .ok (solutionValue sol)
  else .ok ((pyRound (solutionValue sol) : ℤ) : ℚ)

/-- Relational operator of a linear constraint passed to `solver.Add`. -/
inductive Rel where
  | ge
  | eq
deriving DecidableEq

/-- A linear constraint: one coefficient per ingredient (in list order), a
relational operator, and a scalar right-hand side. -/
structure LinearConstraint where
  coeffs : List ℚ
  rel : Rel
  rhs : ℚ
deriving DecidableEq

/-- Dot product of a coefficient list with an assignment list. -/
def dot (cs xs : List ℚ) : ℚ := (List.zipWith (· * ·) cs xs).sum

/-- Satisfaction of one linear constraint by an assignment of the decision
variables (one value per ingredient, in list order). -/
def LinearConstraint.holds (c : LinearConstraint) (xs : List ℚ) : Prop :=
  match c.rel with
  | .ge => c.rhs ≤ dot c.coeffs xs
  | .eq => dot c.coeffs xs = c.rhs

instance (c : LinearConstraint) (xs : List ℚ) : Decidable (c.holds xs) := by
  unfold LinearConstraint.holds
  match c.rel with
  | .ge => exact inferInstance
  | .eq => exact inferInstance

/-- Line 123: `solver.Add(sum(i.solver_num_var for i in ingredients) >= total_feed_weight)`. -/
def massConstraint (ingredients : List Ingredient) (total_feed_weight : ℚ) :
    LinearConstraint :=
  { coeffs := ingredients.map (fun _ => 1), rel := .ge, rhs := total_feed_weight }

/-- Lines 126-127: calcium-weighted sum == target fraction times total weight. -/
def calciumConstraint (ingredients : List Ingredient)
    (target_calcium total_feed_weight : ℚ) : LinearConstraint :=
  { coeffs := ingredients.map (fun i => i.calcium), rel := .eq,
    rhs := target_calcium * total_feed_weight }

/-- Lines 130-131: salt-weighted sum == target fraction times total weight. -/
def saltConstraint (ingredients : List Ingredient)
    (target_salt total_feed_weight : ℚ) : LinearConstraint :=
  { coeffs := ingredients.map (fun i => i.salt), rel := .eq,
    rhs := target_salt * total_feed_weight }

/-- Lines 134-135: protein-weighted sum >= target fraction times total weight. -/
def proteinConstraint (ingredients : List Ingredient)
    (target_protein total_feed_weight : ℚ) : LinearConstraint :=
  { coeffs := ingredients.map (fun i => i.digestible_crude_protein), rel := .ge,
    rhs := target_protein * total_feed_weight }

/-- The four `solver.Add` calls of the main block, in program order. -/
def buildConstraints (ingredients : List Ingredient)
    (target_calcium target_salt target_protein total_feed_weight : ℚ) :
    List LinearConstraint :=
  [massConstraint ingredients total_feed_weight,
   calciumConstraint ingredients target_calcium total_feed_weight,
   saltConstraint ingredients target_salt total_feed_weight,
   proteinConstraint ingredients target_protein total_feed_weight]

/-- A linear objective: one coefficient per ingredient and a direction. -/
structure Objective where
  coeffs : List ℚ
  minimize : Bool
deriving DecidableEq

/-- Line 141: `solver.Minimize(sum(i.digestible_crude_protein * i.solver_num_var
for i in ingredients))`. -/
def buildObjective (ingredients : List Ingredient) : Objective :=
  { coeffs := ingredients.map (fun i => i.digestible_crude_protein),
    minimize := true }

/-- Value of an objective expression at an assignment. -/
def Objective.value (o : Objective) (xs : List ℚ) : ℚ := dot o.coeffs xs

/-! Concrete problem data of the `__main__` block (floats as exact rationals). -/

def target_percentage_calcium : ℚ := 4/100
def target_percentage_salt : ℚ := 3/1000
def target_percentage_methionine : ℚ := 6/10
def target_percentage_digestible_crude_protein : ℚ := 20/100
def total_feed_weight : ℚ := 20
def other_count : ℚ := 4

/-- Line 79: `available_weight = 0.5*total_feed_weight`, with the shared
fraction kept as a parameter as in the bound-policy description. -/
def availableWeight (available_fraction totalW : ℚ) : ℚ :=
  available_fraction * totalW

/-- Line 80: `average_weight = available_weight / other_count`. -/
def averageWeight (available_fraction totalW count : ℚ) : ℚ :=
  availableWeight available_fraction totalW / count

/-- Line 81: `upper_limit = 1.5 * average_weight`. -/
def upperLimitOf (avg : ℚ) : ℚ := 3/2 * avg

/-- Line 82: `lower_limit = 0.5 * average_weight`. -/
def lowerLimitOf (avg : ℚ) : ℚ := 1/2 * avg

def average_weight : ℚ := averageWeight (1/2) total_feed_weight other_count
def upper_limit : ℚ := upperLimitOf average_weight
def lower_limit : ℚ := lowerLimitOf average_weight

/-- Lines 84-88. `0.05/100 = 1/2000`, `0.28/100 = 7/2500`, `12/100`. -/
def base_ingredient : Ingredient :=
  { name := "Pearl Millet", shona_name := "Mapfunde", calcium := 1/2000,
    methionine := 7/2500, digestible_crude_protein := 12/100, salt := 0,
    min_weight := 4/10 * total_feed_weight,
    max_weight := some (5/10 * total_feed_weight) }

/-- Lines 90-93; `max_weight=solver.infinity()` is `none`. -/
def calcium_grit : Ingredient :=
  { name := "Limestone Grit (Calcium)", shona_name := "", calcium := 1,
    methionine := 0, digestible_crude_protein := 0, salt := 0,
    min_weight := 0, max_weight := none }

/-- Lines 94-97. -/
def saltIngredient : Ingredient :=
  { name := "Salt", shona_name := "Munyu", calcium := 0, methionine := 0,
    digestible_crude_protein := 0, salt := 1,
    min_weight := 0, max_weight := none }

/-- Lines 104-107.  `0.04/100 = 1/2500`, `7.5/100 = 3/40`. -/
def maize : Ingredient :=
  { name := "Maize", shona_name := "Chibage", calcium := 1/2500,
    methionine := 0, digestible_crude_protein := 3/40, salt := 0,
    min_weight := lower_limit, max_weight := some upper_limit }

/-- Lines 108-111.  `0.25/100 = 1/400`, `0.6/100 = 3/500`, `44/100`. -/
def soybean : Ingredient :=
  { name := "Soybean", shona_name := "Soya", calcium := 1/400,
    methionine := 3/500, digestible_crude_protein := 44/100, salt := 0,
    min_weight := lower_limit, max_weight := some upper_limit }

/-- Lines 112-115.  `0.09/100 = 9/10000`, `11/100`. -/
def sorghum : Ingredient :=
  { name := "Sorghum", shona_name := "Mhunga", calcium := 1/2500,
    methionine := 9/10000, digestible_crude_protein := 11/100, salt := 0,
    min_weight := lower_limit, max_weight := some upper_limit }

/-- Lines 116-119.  `0.3/100 = 3/1000`, `0.6/100 = 3/500`, `34/100`. -/
def sunflowerSeeds : Ingredient :=
  { name := "Sunflower Seeds", shona_name := "Ruva re Zuva", calcium := 3/1000,
    methionine := 3/500, digestible_crude_protein := 34/100, salt := 0,
    min_weight := lower_limit, max_weight := some upper_limit }

/-- Lines 99-120: the `ingredients` list, in program order. -/
def ingredients : List Ingredient :=
  [calcium_grit, saltIngredient, base_ingredient,
   maize, soybean, sorghum, sunflowerSeeds]

/-- The four interchangeable filler ingredients that receive the pooled
bounds `[lower_limit, upper_limit]`. -/
def flexibleIngredients : List Ingredient :=
  [maize, soybean, sorghum, sunflowerSeeds]

/-! Post-solve reporting (lines 143-167). -/

/-- Solver status codes of `pywraplp.Solver`; line 146 compares against
`OPTIMAL` only. -/
inductive SolverStatus where
  | optimal
  | feasible
  | infeasible
  | unbounded
  | abnormal
  | notSolvedYet
deriving DecidableEq

/-- The information content of one report line `i.result` (lines 54-58): the
displayed ingredient identity (rendered by `__str__`, lines 60-61) and the
displayed weight.  The text rendering of the rationals is immaterial to the
claims, so the line is kept structured. -/
structure ResultLine where
  name : String
  shona_name : String
  digestible_crude_protein : ℚ
  shownWeight : ℚ
deriving DecidableEq

/-- Body of the `result` property once the global `i` is bound: every
displayed field is read from `i`, while only the name-is-"Salt" test reads
`self`; the salt branch shows `i`'s solution value unrounded, the other
branch shows `round(...)` of it. -/
def resultLine (self globalI : Ingredient) (globalISol : ℚ) : ResultLine :=
  if self.name = "Salt" then
    { name := globalI.name, shona_name := globalI.shona_name,
      digestible_crude_protein := globalI.digestible_crude_protein,
      shownWeight := globalISol }
  else
    { name := globalI.name, shona_name := globalI.shona_name,
      digestible_crude_protein := globalI.digestible_crude_protein,
      shownWeight := ((pyRound globalISol : ℤ) : ℚ) }

/-- The `Ingredient.result` property (lines 54-58).  It formats the
module-global `i` (here: an optional binding of an ingredient with its
variable's solution value); an unbound `i` raises `NameError`. -/
def Ingredient.result (self : Ingredient)
    (globalI : Option (Ingredient × ℚ)) : Except PyExn ResultLine :=
  match globalI with
  | none => .error .nameError
  | some (i, isol) => .ok (resultLine self i isol)

/-- The numeric extraction of the Optimal branch (lines 147-164), computed
from the per-ingredient solution values `sols` (in list order) and the
engine's objective value. -/
structure Report where
  proteinPct : ℚ
  lines : List ResultLine
  totalFeedWeight : ℚ
  totalCalcium : ℚ
  methioninePct : ℚ
  methionineTarget : ℚ
deriving DecidableEq

/-- Lines 150-164.  `proteinPct` is `solver.Objective().Value()/total_feed_weight`;
`lines` prints `i.result` in the loop (so `self` and the global `i` coincide);
`totalFeedWeight` is `sum(i.weight for i in ingredients)` — the rounded
`weight` property; `totalCalcium` and `methioninePct` read the unrounded
`solution_value()` directly. -/
def mkReport (ings : List Ingredient) (sols : List ℚ)
    (objectiveValue totalW methTarget : ℚ) : Report :=
  { proteinPct := objectiveValue / totalW
    lines := List.zipWith (fun i s => resultLine i i s) ings sols
    totalFeedWeight := (List.zipWith (fun i s => i.weightVal s) ings sols).sum
    totalCalcium := (List.zipWith (fun i s => i.calcium * s) ings sols).sum
    methioninePct :=
      (List.zipWith (fun i s => i.methionine * s) ings sols).sum / totalW * 100
    methionineTarget := methTarget }

/-- Line 167's failure message. -/
def failureMessage : String := "The solver could not find an optimal solution."

/-- The status branch (lines 146-167): numeric extraction happens only in the
`OPTIMAL` arm; every other status prints the failure message and extracts
nothing. -/
def reportOutcome (status : SolverStatus) (ings : List Ingredient)
    (sols : List ℚ) (objectiveValue totalW methTarget : ℚ) :
    Except String Report :=
  if status = .optimal then
    .ok (mkReport ings sols objectiveValue totalW methTarget)
  else
    .error failureMessage

/-! Shared lemmas. -/

theorem weight_eq_ok_weightVal (ing : Ingredient) (sol : Option ℚ) :
    ing.weight sol = .ok (ing.weightVal (solutionValue sol)) := by
  unfold Ingredient.weight Ingredient.weightVal
  split <;> rfl

theorem dot_map_one {α : Type} (l : List α) (xs : List ℚ)
    (h : xs.length = l.length) :
    dot (l.map fun _ => (1 : ℚ)) xs = xs.sum := by
  induction l generalizing xs with
  | nil =>
    cases xs with
    | nil => rfl
    | cons x xs => simp at h
  | cons a l ih =>
    cases xs with
    | nil => simp at h
    | cons x xs =>
      simp only [List.length_cons, Nat.succ_inj] at h
      show 1 * x + dot (l.map fun _ => (1 : ℚ)) xs = x + xs.sum
      rw [one_mul, ih xs h]

theorem dot_map (f : Ingredient → ℚ) (l : List Ingredient) (xs : List ℚ) :
    dot (l.map f) xs = (List.zipWith (fun i x => f i * x) l xs).sum := by
  induction l generalizing xs with
  | nil => rfl
  | cons a l ih =>
    cases xs with
    | nil => rfl
    | cons x xs =>
      show f a * x + dot (l.map f) xs
        = f a * x + (List.zipWith (fun i x => f i * x) l xs).sum
      rw [ih]

theorem ratFloor_eq_intFloor (q : ℚ) : q.floor = ⌊q⌋ := by
  rw [Rat.floor_def, Rat.floor_def']

theorem abs_sub_pyRound_le (q : ℚ) : |q - (pyRound q : ℚ)| ≤ 1/2 := by
  have h0 : (⌊q⌋ : ℚ) ≤ q := Int.floor_le q
  have h1 : q < ⌊q⌋ + 1 := Int.lt_floor_add_one q
  unfold pyRound
  rw [ratFloor_eq_intFloor]
  split_ifs with hlt hgt heven
  · rw [abs_of_nonneg (by linarith)]
    linarith
  · push_cast
    rw [abs_of_nonpos (by linarith)]
    linarith
  · rw [abs_of_nonneg (by linarith)]
    linarith
  · push_cast
    rw [abs_of_nonpos (by linarith)]
    linarith

/-! Claim theorems. -/

/-- C1: the synthesizer builds exactly four linear constraints over the
decision variables, and an assignment satisfies them all iff the sum of the
variables is at least total_feed_weight, the calcium-weighted sum equals
target_calcium × total_feed_weight, the salt-weighted sum equals target_salt ×
total_feed_weight, and the protein-weighted sum is at least target_protein ×
total_feed_weight. -/
theorem C1_four_constraints (ings : List Ingredient)
    (tCa tSalt tProt totalW : ℚ) (xs : List ℚ)
    (h : xs.length = ings.length) :
    (buildConstraints ings tCa tSalt tProt totalW).length = 4 ∧
    ((∀ c ∈ buildConstraints ings tCa tSalt tProt totalW, c.holds xs) ↔
      (totalW ≤ xs.sum ∧
       dot (ings.map fun i => i.calcium) xs = tCa * totalW ∧
       dot (ings.map fun i => i.salt) xs = tSalt * totalW ∧
       tProt * totalW ≤ dot (ings.map fun i => i.digestible_crude_protein) xs)) := by
  refine ⟨rfl, ?_⟩
  simp only [buildConstraints, List.forall_mem_cons, List.forall_mem_singleton]
  unfold LinearConstraint.holds massConstraint calciumConstraint saltConstraint
    proteinConstraint
  simp only []
  rw [dot_map_one ings xs h]
  tauto

/-- Witness for C1 at the program's own ingredient list and targets. -/
theorem C1_four_constraints_witness :
    (buildConstraints ingredients target_percentage_calcium
      target_percentage_salt target_percentage_digestible_crude_protein
      total_feed_weight).length = 4 :=
  (C1_four_constraints ingredients target_percentage_calcium
    target_percentage_salt target_percentage_digestible_crude_protein
    total_feed_weight [20, 0, 0, 0, 0, 0, 0] rfl).1

/-- C2: the objective is set with minimize direction and its value at any
assignment is the sum over the ingredients of digestible_crude_protein_i ×
var_i. -/
theorem C2_objective_minimize (ings : List Ingredient) (xs : List ℚ) :
    (buildObjective ings).minimize = true ∧
    (buildObjective ings).value xs
      = (List.zipWith (fun i x => i.digestible_crude_protein * x) ings xs).sum :=
  ⟨rfl, dot_map (fun i => i.digestible_crude_protein) ings xs⟩

/-- C3: the weight accessor returns the solved value unrounded for the one
ingredient named "Salt" (exactly one such ingredient exists in the program's
list) and for every other ingredient returns the nearest whole number of the
solved value (an integer within 1/2 of it). -/
theorem C3_rounding_policy (ing : Ingredient) (v : ℚ) :
    (ing.name = "Salt" → ing.weight (some v) = .ok v) ∧
    (ing.name ≠ "Salt" →
      ing.weight (some v) = .ok ((pyRound v : ℤ) : ℚ) ∧
      (∃ z : ℤ, ing.weightVal v = (z : ℚ)) ∧
      |v - ing.weightVal v| ≤ 1/2) ∧
    ingredients.countP (fun i => i.name == "Salt") = 1 := by
  refine ⟨?_, ?_, by decide⟩
  · intro h
    unfold Ingredient.weight
    rw [if_pos h]
    rfl
  · intro h
    have hv : ing.weightVal v = ((pyRound v : ℤ) : ℚ) := by
      unfold Ingredient.weightVal
      rw [if_neg h]
    refine ⟨?_, ⟨pyRound v, hv⟩, ?_⟩
    · unfold Ingredient.weight
      rw [if_neg h]
      rfl
    · rw [hv]
      exact abs_sub_pyRound_le v

/-- Witness for C3: the salt ingredient keeps 0.06 unrounded; Maize at 1.4 is
reported as the rounded integer. -/
theorem C3_rounding_policy_witness :
    saltIngredient.weight (some (3/50)) = .ok (3/50) ∧
    maize.weight (some (7/5)) = .ok ((pyRound (7/5) : ℤ) : ℚ) :=
  ⟨(C3_rounding_policy saltIngredient (3/50)).1 rfl,
   ((C3_rounding_policy maize (7/5)).2.1 (by decide)).1⟩

/-- Solved values exhibiting the rounding of the reported total: 0.8, 0.06,
10, 1.4, 2.5, 1.3, 3 for the seven ingredients in list order. -/
def solsCE : List ℚ := [4/5, 3/50, 10, 7/5, 5/2, 13/10, 3]

/-- C4 counterexample: the reported total feed weight is the sum of the
policy-rounded weights, 18.06 kg, not the unrounded sum 19.06 kg of the
solved values — so not every mass derivation uses unrounded values. -/
theorem C4_counterexample :
    (mkReport ingredients solsCE 4 total_feed_weight
        target_percentage_methionine).totalFeedWeight = 903/50 ∧
    solsCE.sum = 953/50 ∧ (903/50 : ℚ) ≠ 953/50 := by
  refine ⟨?_, by norm_num [solsCE], by norm_num⟩
  show (List.zipWith (fun i s => i.weightVal s) ingredients solsCE).sum = 903/50
  simp only [ingredients, solsCE, List.zipWith_cons_cons, List.zipWith_nil_right,
    List.sum_cons, List.sum_nil, Ingredient.weightVal, calcium_grit, saltIngredient,
    base_ingredient, maize, soybean, sorghum, sunflowerSeeds]
  norm_num [pyRound, ratFloor_eq_intFloor]
  rw [if_neg (show ¬("Limestone Grit (Calcium)" = "Salt") by decide),
    if_neg (show ¬("Maize" = "Salt") by decide),
    if_neg (show ¬("Soybean" = "Salt") by decide),
    if_neg (show ¬("Sorghum" = "Salt") by decide)]
  norm_num

/-- C4 amended: the protein percentage, total calcium mass and methionine
percentage are computed from the unrounded solved values, but the reported
total feed weight is the sum of the per-ingredient weights with the rounding
policy already applied. -/
theorem C4_unrounded_arithmetic (ings : List Ingredient) (sols : List ℚ)
    (objVal totalW methTarget : ℚ) :
    (mkReport ings sols objVal totalW methTarget).proteinPct = objVal / totalW ∧
    (mkReport ings sols objVal totalW methTarget).totalCalcium
      = dot (ings.map fun i => i.calcium) sols ∧
    (mkReport ings sols objVal totalW methTarget).methioninePct
      = dot (ings.map fun i => i.methionine) sols / totalW * 100 ∧
    (mkReport ings sols objVal totalW methTarget).totalFeedWeight
      = (List.zipWith (fun i s => i.weightVal s) ings sols).sum := by
  refine ⟨rfl, (dot_map _ _ _).symm, ?_, rfl⟩
  show (List.zipWith (fun i s => i.methionine * s) ings sols).sum / totalW * 100 = _
  rw [dot_map]

/-- C5 counterexample: constructing with min_weight = 5 > max_weight = 1, or
with min_weight = -1 < 0, succeeds — `__init__` validates nothing, so no
InvalidBoundsError is raised. -/
theorem C5_counterexample :
    Ingredient.init "A" "B" 0 0 0 0 5 (some 1)
        ≠ .error PyExn.invalidBounds ∧
    Ingredient.init "A" "B" 0 0 0 0 (-1) (some 1)
        ≠ .error PyExn.invalidBounds :=
  ⟨fun h => Except.noConfusion h, fun h => Except.noConfusion h⟩

/-- C5 amended: construction never fails — for every input, including
min_weight > max_weight and min_weight < 0, `__init__` succeeds and registers
one decision variable bounded to [min_weight, max_weight] with the label
"name - shona_name"; valid bounds are accepted in particular. -/
theorem C5_construction_total (nm sh : String)
    (ca sa me dcp minW : ℚ) (maxW : Option ℚ) :
    ∃ ing : Ingredient,
      Ingredient.init nm sh ca sa me dcp minW maxW = .ok ing ∧
      ing.min_weight = minW ∧ ing.max_weight = maxW ∧
      ing.varLabel = nm ++ " - " ++ sh :=
  ⟨_, rfl, rfl, rfl, rfl⟩

/-- C6 counterexample: calling `weight` before any solve does not raise
NotSolvedError — on the pre-solve engine state it returns the rounding policy
applied to the engine default 0 (here 0 for Pearl Millet). -/
theorem C6_counterexample :
    base_ingredient.weight none = .ok 0 ∧
    base_ingredient.weight none ≠ .error PyExn.notSolved := by
  have h : base_ingredient.weight none = .ok 0 := by
    rw [weight_eq_ok_weightVal]
    show Except.ok (base_ingredient.weightVal 0) = Except.ok 0
    have : base_ingredient.weightVal 0 = 0 := by
      show (if base_ingredient.name = "Salt" then (0:ℚ)
            else ((pyRound 0 : ℤ) : ℚ)) = 0
      rw [if_neg (by decide)]
      norm_num [pyRound, ratFloor_eq_intFloor]
    rw [this]
  exact ⟨h, by rw [h]; exact fun hh => Except.noConfusion hh⟩

/-- C6 amended: the accessor performs no solve-status check (the precondition
lives only in a source comment): it never raises, returning the rounding
policy applied to whatever value the engine currently reports — the engine
default before a solve, the solved value after a successful solve. -/
theorem C6_weight_total (ing : Ingredient) (sol : Option ℚ) :
    ing.weight sol = .ok (ing.weightVal (solutionValue sol)) ∧
    ∀ e : PyExn, ing.weight sol ≠ .error e := by
  refine ⟨weight_eq_ok_weightVal ing sol, fun e h => ?_⟩
  rw [weight_eq_ok_weightVal] at h
  exact Except.noConfusion h

/-- Witness for C6 at the salt ingredient on a solved state. -/
theorem C6_weight_total_witness :
    saltIngredient.weight (some (3/50))
      = .ok (saltIngredient.weightVal (solutionValue (some (3/50)))) :=
  (C6_weight_total saltIngredient (some (3/50))).1

/-- C7: the bound policy computes average = (available_fraction ×
total_feed_weight) / other_count, lower = 0.5 × average, upper = 1.5 ×
average; at the program's data (fraction 0.5, total 20, count 4) these are
2.5, 1.25 and 3.75, and every flexible ingredient receives exactly the
bounds [1.25, 3.75]. -/
theorem C7_bound_policy :
    (∀ af totalW count : ℚ,
      averageWeight af totalW count = af * totalW / count ∧
      lowerLimitOf (averageWeight af totalW count) = 1/2 * (af * totalW / count) ∧
      upperLimitOf (averageWeight af totalW count) = 3/2 * (af * totalW / count)) ∧
    average_weight = 5/2 ∧ lower_limit = 5/4 ∧ upper_limit = 15/4 ∧
    ∀ ing ∈ flexibleIngredients,
      ing.min_weight = 5/4 ∧ ing.max_weight = some (15/4) := by
  have havg : average_weight = 5/2 := by
    norm_num [average_weight, averageWeight, availableWeight, total_feed_weight,
      other_count]
  have hlo : lower_limit = 5/4 := by
    rw [lower_limit, havg]
    norm_num [lowerLimitOf]
  have hup : upper_limit = 15/4 := by
    rw [upper_limit, havg]
    norm_num [upperLimitOf]
  refine ⟨fun af t c => ⟨rfl, rfl, rfl⟩, havg, hlo, hup, ?_⟩
  intro ing hing
  simp only [flexibleIngredients, List.mem_cons, List.not_mem_nil, or_false] at hing
  rcases hing with rfl | rfl | rfl | rfl <;> exact ⟨hlo, congrArg _ hup⟩

/-- Witness for C7: Maize carries the policy bounds. -/
theorem C7_bound_policy_witness :
    maize.min_weight = 5/4 ∧ maize.max_weight = some (15/4) :=
  C7_bound_policy.2.2.2.2 maize
    (show maize ∈ flexibleIngredients from List.mem_cons_self _ _)

/-- C8: neither any of the four constraints nor the objective references the
methionine coefficients — changing every ingredient's methionine arbitrarily
leaves the built linear system unchanged — and the methionine total appears
only in the post-solve report, compared against its target. -/
theorem C8_methionine_unconstrained (ings : List Ingredient)
    (g : Ingredient → ℚ) (tCa tSalt tProt totalW : ℚ)
    (sols : List ℚ) (objVal methTarget : ℚ) :
    buildConstraints (ings.map fun ing => { ing with methionine := g ing })
        tCa tSalt tProt totalW
      = buildConstraints ings tCa tSalt tProt totalW ∧
    buildObjective (ings.map fun ing => { ing with methionine := g ing })
      = buildObjective ings ∧
    (mkReport ings sols objVal totalW methTarget).methioninePct
      = dot (ings.map fun i => i.methionine) sols / totalW * 100 ∧
    (mkReport ings sols objVal totalW methTarget).methionineTarget
      = methTarget := by
  refine ⟨?_, ?_, ?_, rfl⟩
  · unfold buildConstraints massConstraint calciumConstraint saltConstraint
      proteinConstraint
    simp only [List.map_map]
    exact rfl
  · unfold buildObjective
    simp only [List.map_map]
    exact rfl
  · show (List.zipWith (fun i s => i.methionine * s) ings sols).sum / totalW * 100
      = _
    rw [dot_map]

/-- C9: a report (numeric extraction) is produced iff the solver status is
Optimal; on every other status the failure message is reported instead and
nothing is extracted. -/
theorem C9_optimal_gate (status : SolverStatus) (ings : List Ingredient)
    (sols : List ℚ) (objVal totalW methTarget : ℚ) :
    ((∃ r, reportOutcome status ings sols objVal totalW methTarget = .ok r)
        ↔ status = SolverStatus.optimal) ∧
    (reportOutcome status ings sols objVal totalW methTarget
        = .error failureMessage ↔ status ≠ SolverStatus.optimal) ∧
    (status = SolverStatus.optimal →
      reportOutcome status ings sols objVal totalW methTarget
        = .ok (mkReport ings sols objVal totalW methTarget)) := by
  unfold reportOutcome
  by_cases h : status = SolverStatus.optimal
  · subst h
    simp
  · rw [if_neg h]
    simp [h]

/-- Witness for C9: with status Optimal the report of the program's data is
extracted. -/
theorem C9_optimal_gate_witness :
    reportOutcome SolverStatus.optimal ingredients [1, 2, 3, 4, 5, 6, 7] 4
        total_feed_weight target_percentage_methionine
      = .ok (mkReport ingredients [1, 2, 3, 4, 5, 6, 7] 4 total_feed_weight
          target_percentage_methionine) :=
  (C9_optimal_gate SolverStatus.optimal ingredients [1, 2, 3, 4, 5, 6, 7] 4
    total_feed_weight target_percentage_methionine).2.2 rfl

/-- C10 counterexample: with the module-global `i` bound to Maize at solved
value 1.4, the Salt receiver's `result` shows Maize with 1.4 unrounded — not
Maize's reported weight 1 — and its shown weight differs from the one Maize's
own `result` shows, so `result` does read the receiver's state (its name). -/
theorem C10_counterexample :
    saltIngredient.result (some (maize, 7/5))
      = .ok { name := "Maize", shona_name := "Chibage",
              digestible_crude_protein := 3/40, shownWeight := 7/5 } ∧
    maize.weightVal (7/5) = 1 ∧ ((7/5 : ℚ) ≠ 1) ∧
    (resultLine saltIngredient maize (7/5)).shownWeight
      ≠ (resultLine maize maize (7/5)).shownWeight := by
  refine ⟨rfl, ?_, by norm_num, ?_⟩
  · show (if maize.name = "Salt" then (7/5 : ℚ)
          else ((pyRound (7/5) : ℤ) : ℚ)) = 1
    rw [if_neg (by decide)]
    norm_num [pyRound, ratFloor_eq_intFloor]
  · show (7/5 : ℚ) ≠ ((pyRound (7/5) : ℤ) : ℚ)
    norm_num [pyRound, ratFloor_eq_intFloor]

/-- C10 amended: `result` formats the module-global `i`'s identity and
solution value, and reads the receiver only through the name-is-"Salt" test
choosing unrounded versus rounded display; with `i` unbound it raises
NameError; in the report loop, where the receiver and the global coincide,
the shown weight equals the weight-property value. -/
theorem C10_result_reads_global (self i : Ingredient) (sol : ℚ) :
    self.result (some (i, sol)) = .ok (resultLine self i sol) ∧
    (resultLine self i sol).name = i.name ∧
    (resultLine self i sol).shona_name = i.shona_name ∧
    (resultLine self i sol).digestible_crude_protein
      = i.digestible_crude_protein ∧
    (resultLine self i sol).shownWeight
      = (if self.name = "Salt" then sol else ((pyRound sol : ℤ) : ℚ)) ∧
    self.result none = .error PyExn.nameError ∧
    (resultLine i i sol).shownWeight = i.weightVal sol := by
  refine ⟨rfl, ?_, ?_, ?_, ?_, rfl, ?_⟩
  · unfold resultLine
    split_ifs <;> rfl
  · unfold resultLine
    split_ifs <;> rfl
  · unfold resultLine
    split_ifs <;> rfl
  · unfold resultLine
    split_ifs <;> rfl
  · unfold resultLine Ingredient.weightVal
    split_ifs <;> rfl

end FeedCalc
